import Mathlib

/-!
Shallow embedding of the oath2 OpenFlow 1.3 controller (Rust) and proofs
about its codec, session reader and dispatcher.  Byte sequences are
modelled as `List Nat` whose elements denote u8 values; multi-byte reads
take the low 8 bits of each element, recording the u8 invariant.  A
fallible Rust computation is modelled by `RustResult`: `ok` and `err`
mirror `Result`, and `panic` marks an abort (failed `unwrap`/`expect`,
`unimplemented!`, out-of-bounds slice index, checked-arithmetic
underflow).
-/

namespace Oath

/-- Error kinds declared in src/err.rs (error_chain), together with
`unsupportedValue`, which the codec modules construct (flow_match.rs,
flow_instructions.rs) even though err.rs does not declare it, and
`chained`, which stands for a chain_err-wrapped low-level read failure. -/
inductive ErrorKind where
  | invalidSliceLength (expected actual : Nat) (ttype : String)
  | couldNotReadLength (access : Nat) (ttype : String)
  | unknownValue (val : Nat) (ttype : String)
  | illegalValue (val : Nat) (ttype : String)
  | unsupportedValue (val : Nat) (ttype : String)
  | chained (msg : String)
  deriving DecidableEq

/-- Outcome of a fallible Rust computation: a value, a typed error, or a
thread-aborting panic. -/
inductive RustResult (α : Type) where
  | ok (a : α)
  | err (e : ErrorKind)
  | panic
  deriving DecidableEq

/-- Boolean test for the panic outcome. -/
def RustResult.isPanic {α : Type} : RustResult α → Bool
  | .panic => true
  | _ => false

/-- Models Result::expect: an error value aborts the thread. -/
def expectR {α : Type} : RustResult α → RustResult α
  | .ok a => .ok a
  | .err _ => .panic
  | .panic => .panic

/-- Models Option::unwrap: None aborts the thread. -/
def unwrapO {α : Type} : Option α → RustResult α
  | some a => .ok a
  | none => .panic

/-- Models byteorder read_u8 on a cursor: the first element as a u8 value,
plus the remaining bytes.  None models an exhausted cursor. -/
def readU8? : List Nat → Option (Nat × List Nat)
  | [] => none
  | b :: rest => some (b % 256, rest)

/-- Models byteorder read_u16 (big-endian) on a cursor. -/
def readU16? (l : List Nat) : Option (Nat × List Nat) :=
  match readU8? l with
  | none => none
  | some (hi, r1) =>
    match readU8? r1 with
    | none => none
    | some (lo, r2) => some (hi * 256 + lo, r2)

/-- Models byteorder read_u32 (big-endian) on a cursor. -/
def readU32? (l : List Nat) : Option (Nat × List Nat) :=
  match readU16? l with
  | none => none
  | some (hi, r1) =>
    match readU16? r1 with
    | none => none
    | some (lo, r2) => some (hi * 65536 + lo, r2)

/-- Models byteorder read_u64 (big-endian) on a cursor. -/
def readU64? (l : List Nat) : Option (Nat × List Nat) :=
  match readU32? l with
  | none => none
  | some (hi, r1) =>
    match readU32? r1 with
    | none => none
    | some (lo, r2) => some (hi * 4294967296 + lo, r2)

/-- Models byteorder write_u8: one byte. -/
def u8be (n : Nat) : List Nat := [n % 256]

/-- Models byteorder write_u16 (big-endian): two bytes. -/
def u16be (n : Nat) : List Nat := [n / 256 % 256, n % 256]

/-- Models byteorder write_u32 (big-endian): four bytes. -/
def u32be (n : Nat) : List Nat := u16be (n / 65536) ++ u16be n

/-- Models byteorder write_u64 (big-endian): eight bytes. -/
def u64be (n : Nat) : List Nat := u32be (n / 4294967296) ++ u32be n

/-- OpenFlow version enum of src/ds/mod.rs. -/
inductive Version where
  | v1_0
  | v1_1
  | v1_2
  | v1_3
  | v1_4
  deriving DecidableEq

/-- Discriminant of a Version value. -/
def Version.toU8 : Version → Nat
  | .v1_0 => 1
  | .v1_1 => 2
  | .v1_2 => 3
  | .v1_3 => 4
  | .v1_4 => 5

/-- Version::from_u8: exact table lookup of the num-derive Primitive impl. -/
def Version.fromU8? : Nat → Option Version
  | 1 => some .v1_0
  | 2 => some .v1_1
  | 3 => some .v1_2
  | 4 => some .v1_3
  | 5 => some .v1_4
  | _ => none

/-- OpenFlow message type enum of src/ds/mod.rs (the Rust enum is named
Type, a reserved word in Lean). -/
inductive MsgType where
  | hello
  | error
  | echoRequest
  | echoReply
  | experimenter
  | featuresRequest
  | featuresReply
  | getConfigRequest
  | getConfigReply
  | setConfig
  | packetIn
  | flowRemoved
  | portStatus
  | packetOut
  | flowMod
  | groupMod
  | portMod
  | tableMod
  | multipartRequest
  | multipartReply
  | barrierRequest
  | barrierReply
  | queueGetConfigRequest
  | queueGetConfigReply
  | roleRequest
  | roleReply
  | getAsyncRequest
  | getAsyncReply
  | setAsync
  | meterMod
  deriving DecidableEq

/-- Discriminant of a message type. -/
def MsgType.toU8 : MsgType → Nat
  | .hello => 0
  | .error => 1
  | .echoRequest => 2
  | .echoReply => 3
  | .experimenter => 4
  | .featuresRequest => 5
  | .featuresReply => 6
  | .getConfigRequest => 7
  | .getConfigReply => 8
  | .setConfig => 9
  | .packetIn => 10
  | .flowRemoved => 11
  | .portStatus => 12
  | .packetOut => 13
  | .flowMod => 14
  | .groupMod => 15
  | .portMod => 16
  | .tableMod => 17
  | .multipartRequest => 18
  | .multipartReply => 19
  | .barrierRequest => 20
  | .barrierReply => 21
  | .queueGetConfigRequest => 22
  | .queueGetConfigReply => 23
  | .roleRequest => 24
  | .roleReply => 25
  | .getAsyncRequest => 26
  | .getAsyncReply => 27
  | .setAsync => 28
  | .meterMod => 29

/-- Type::from_u8: exact table lookup of the num-derive Primitive impl. -/
def MsgType.fromU8? : Nat → Option MsgType
  | 0 => some .hello
  | 1 => some .error
  | 2 => some .echoRequest
  | 3 => some .echoReply
  | 4 => some .experimenter
  | 5 => some .featuresRequest
  | 6 => some .featuresReply
  | 7 => some .getConfigRequest
  | 8 => some .getConfigReply
  | 9 => some .setConfig
  | 10 => some .packetIn
  | 11 => some .flowRemoved
  | 12 => some .portStatus
  | 13 => some .packetOut
  | 14 => some .flowMod
  | 15 => some .groupMod
  | 16 => some .portMod
  | 17 => some .tableMod
  | 18 => some .multipartRequest
  | 19 => some .multipartReply
  | 20 => some .barrierRequest
  | 21 => some .barrierReply
  | 22 => some .queueGetConfigRequest
  | 23 => some .queueGetConfigReply
  | 24 => some .roleRequest
  | 25 => some .roleReply
  | 26 => some .getAsyncRequest
  | 27 => some .getAsyncReply
  | 28 => some .setAsync
  | 29 => some .meterMod
  | _ => none

/-- Length of an OpenFlow header in bytes (src/ds/mod.rs HEADER_LENGTH). -/
def HEADER_LENGTH : Nat := 8

/-- OpenFlow header struct of src/ds/mod.rs. -/
structure Header where
  version : Version
  ttype : MsgType
  length : Nat
  xid : Nat
  deriving DecidableEq

/-- Header::payload_length computes length - HEADER_LENGTH in u16
arithmetic.  Wrapping (release-build) semantics are modelled; a debug
build panics on the underflow that occurs when length < 8. -/
def Header.payloadLength (h : Header) : Nat :=
  (h.length + 65536 - HEADER_LENGTH) % 65536

/-- Header::try_from of src/ds/mod.rs: slice-length guard, then version,
type, length and xid reads.  Read failures are chain_err-wrapped typed
errors (no panic); unknown version or type values yield UnknownValue. -/
def Header.tryFrom (bytes : List Nat) : RustResult Header :=
  if bytes.length ≠ HEADER_LENGTH then
    .err (.invalidSliceLength HEADER_LENGTH bytes.length "Header")
  else
    match readU8? bytes with
    | none => .err (.chained "could not read header version")
    | some (vraw, r1) =>
      match Version.fromU8? vraw with
      | none => .err (.unknownValue vraw "Version")
      | some version =>
        match readU8? r1 with
        | none => .err (.chained "could not read header type")
        | some (traw, r2) =>
          match MsgType.fromU8? traw with
          | none => .err (.unknownValue traw "Type")
          | some ttype =>
            match readU16? r2 with
            | none => .err (.chained "could not read header length")
            | some (length, r3) =>
              match readU32? r3 with
              | none => .err (.chained "could not read header xid")
              | some (xid, _) => .ok ⟨version, ttype, length, xid⟩

/-- Into Vec for Header: version byte, type byte, u16 length, u32 xid. -/
def Header.intoVec (h : Header) : List Nat :=
  [h.version.toU8 % 256, h.ttype.toU8 % 256] ++ u16be h.length ++ u32be h.xid

/-- Reserved port discriminants of the PortNo enum in src/ds/ports.rs. -/
def portNoValues : List Nat :=
  [0xffffff00, 0xfffffff8, 0xfffffff9, 0xfffffffa, 0xfffffffb,
   0xfffffffc, 0xfffffffd, 0xfffffffe, 0xffffffff]

/-- PortNo::from_u32: exact table lookup; a reserved constant is modelled
by its discriminant. -/
def portNoFromU32? (p : Nat) : Option Nat :=
  if p ∈ portNoValues then some p else none

/-- PortNumber of src/ds/ports.rs: a reserved constant or a normal port. -/
inductive PortNumber where
  | reserved (portNo : Nat)
  | normalPort (p : Nat)
  deriving DecidableEq

/-- PortNumber::try_from of src/ds/ports.rs: zero is IllegalValue, a
reserved discriminant becomes Reserved, any other value NormalPort. -/
def PortNumber.tryFrom (portNo : Nat) : RustResult PortNumber :=
  if portNo = 0 then .err (.illegalValue 0 "PortNumber")
  else
    match portNoFromU32? portNo with
    | some port => .ok (.reserved port)
    | none => .ok (.normalPort portNo)

/-- Into u32 for PortNumber. -/
def PortNumber.intoU32 : PortNumber → Nat
  | .reserved c => c
  | .normalPort p => p

/-- Element-copy loop of the from_slice_* functions of src/ds/hw_addr.rs:
indexing slice[i] for i below n panics (out-of-bounds abort) as soon as
the slice is shorter than n. -/
def copySlice (s : List Nat) (n : Nat) : RustResult (List Nat) :=
  if n ≤ s.length then .ok (s.take n) else .panic

/-- from_slice_eth of src/ds/hw_addr.rs: exact length-6 guard, then copy
of 6 bytes. -/
def from_slice_eth (slice : List Nat) : RustResult (List Nat) :=
  if slice.length ≠ 6 then
    .err (.invalidSliceLength 6 slice.length "EthernetAddress")
  else copySlice slice 6

/-- from_slice_v4 of src/ds/hw_addr.rs: the guard compares against
ETHERNET_ADDRESS_LENGTH (6), not IPV4_ADDRESS_LENGTH (4), exactly as the
source does; the copy loop then takes 4 bytes. -/
def from_slice_v4 (slice : List Nat) : RustResult (List Nat) :=
  if slice.length ≠ 6 then
    .err (.invalidSliceLength 4 slice.length "IPv4Address")
  else copySlice slice 4

/-- from_slice_v6 of src/ds/hw_addr.rs: the guard compares against
ETHERNET_ADDRESS_LENGTH (6) and the copy loop then indexes 8 bytes
(IPV6_ADDRESS_LENGTH) out of the 6-byte slice, exactly as the source
does, so every length-6 slice aborts with an out-of-bounds index. -/
def from_slice_v6 (slice : List Nat) : RustResult (List Nat) :=
  if slice.length ≠ 6 then
    .err (.invalidSliceLength 8 slice.length "IPv6Address")
  else copySlice slice 8

/-- ConfigFlags::from_bits of src/ds/switch_config.rs: the bitflags mask
is FRAG_DROP 1 with FRAG_REASM 2 and FRAG_MASK 3, so exactly the values
below 4 are accepted; the flags value is modelled by its bits. -/
def configFlagsFromBits? (v : Nat) : Option Nat :=
  if v < 4 then some v else none

/-- SwitchConfig struct of src/ds/switch_config.rs; flags is the raw
ConfigFlags bits value. -/
structure SwitchConfig where
  flags : Nat
  missSendLen : Nat
  deriving DecidableEq

/-- SwitchConfig::try_from of src/ds/switch_config.rs: both the u16 reads
and the ConfigFlags::from_bits lookup are unwrapped, so a short slice or
an unknown flag bit aborts the thread instead of returning an error. -/
def SwitchConfig.tryFrom (bytes : List Nat) : RustResult SwitchConfig :=
  match readU16? bytes with
  | none => .panic
  | some (raw, r1) =>
    match configFlagsFromBits? raw with
    | none => .panic
    | some flags =>
      match readU16? r1 with
      | none => .panic
      | some (missSendLen, _) => .ok ⟨flags, missSendLen⟩

/-- Into Vec for SwitchConfig, exactly as src/ds/switch_config.rs writes
it: the flags field is written twice and miss_send_len is never written
(the second write_u16 call passes self.flags.bits() again). -/
def SwitchConfig.intoVec (m : SwitchConfig) : List Nat :=
  u16be m.flags ++ u16be m.flags

/-- PayloadWriteActions of src/ds/flow_instructions.rs; the actions field
is a Vec of unit placeholders in the source. -/
structure PayloadWriteActions where
  actions : List Unit
  deriving DecidableEq

/-- PayloadWriteActions::try_from is unimplemented!() in the source:
every call aborts the thread. -/
def PayloadWriteActions.tryFrom (_bytes : List Nat) :
    RustResult PayloadWriteActions :=
  .panic

/-- PayloadApplyActions of src/ds/flow_instructions.rs. -/
structure PayloadApplyActions where
  actions : List Unit
  deriving DecidableEq

/-- PayloadApplyActions::try_from is unimplemented!() in the source:
every call aborts the thread. -/
def PayloadApplyActions.tryFrom (_bytes : List Nat) :
    RustResult PayloadApplyActions :=
  .panic

/-- OfPayload enum of src/ds/mod.rs.  In the source every variant is a
unit variant (the payload-carrying forms are commented out). -/
inductive OfPayload where
  | hello
  | error
  | echoRequest
  | echoReply
  | experimenter
  | featuresRequest
  | featuresReply
  | getConfigRequest
  | getConfigReply
  | setConfig
  | packetIn
  | flowRemoved
  | portStatus
  | packetOut
  | flowMod
  | groupMod
  | portMod
  | tableMod
  | multipartRequest
  | multipartReply
  | barrierRequest
  | barrierReply
  | queueGetConfigRequest
  | queueGetConfigReply
  | roleRequest
  | roleReply
  | getAsyncRequest
  | getAsyncReply
  | setAsync
  | meterMod
  deriving DecidableEq

/-- OfPayload::generate_header of src/ds/mod.rs: a V1_3 header of length
8 with the given xid whose type matches the payload variant.  Two source
oddities are kept: the GetConfigReply arm sets Type::GetConfigRequest,
and the Error variant falls into the catch-all panic! arm. -/
def OfPayload.generateHeader (p : OfPayload) (xid : Nat) : RustResult Header :=
  match p with
  | .hello => .ok ⟨.v1_3, .hello, 8, xid⟩
  | .error => .panic
  | .echoRequest => .ok ⟨.v1_3, .echoRequest, 8, xid⟩
  | .echoReply => .ok ⟨.v1_3, .echoReply, 8, xid⟩
  | .experimenter => .ok ⟨.v1_3, .experimenter, 8, xid⟩
  | .featuresRequest => .ok ⟨.v1_3, .featuresRequest, 8, xid⟩
  | .featuresReply => .ok ⟨.v1_3, .featuresReply, 8, xid⟩
  | .getConfigRequest => .ok ⟨.v1_3, .getConfigRequest, 8, xid⟩
  | .getConfigReply => .ok ⟨.v1_3, .getConfigRequest, 8, xid⟩
  | .setConfig => .ok ⟨.v1_3, .setConfig, 8, xid⟩
  | .packetIn => .ok ⟨.v1_3, .packetIn, 8, xid⟩
  | .flowRemoved => .ok ⟨.v1_3, .flowRemoved, 8, xid⟩
  | .portStatus => .ok ⟨.v1_3, .portStatus, 8, xid⟩
  | .packetOut => .ok ⟨.v1_3, .packetOut, 8, xid⟩
  | .flowMod => .ok ⟨.v1_3, .flowMod, 8, xid⟩
  | .groupMod => .ok ⟨.v1_3, .groupMod, 8, xid⟩
  | .portMod => .ok ⟨.v1_3, .portMod, 8, xid⟩
  | .tableMod => .ok ⟨.v1_3, .tableMod, 8, xid⟩
  | .multipartRequest => .ok ⟨.v1_3, .multipartRequest, 8, xid⟩
  | .multipartReply => .ok ⟨.v1_3, .multipartReply, 8, xid⟩
  | .barrierRequest => .ok ⟨.v1_3, .barrierRequest, 8, xid⟩
  | .barrierReply => .ok ⟨.v1_3, .barrierReply, 8, xid⟩
  | .queueGetConfigRequest => .ok ⟨.v1_3, .queueGetConfigRequest, 8, xid⟩
  | .queueGetConfigReply => .ok ⟨.v1_3, .queueGetConfigReply, 8, xid⟩
  | .roleRequest => .ok ⟨.v1_3, .roleRequest, 8, xid⟩
  | .roleReply => .ok ⟨.v1_3, .roleReply, 8, xid⟩
  | .getAsyncRequest => .ok ⟨.v1_3, .getAsyncRequest, 8, xid⟩
  | .getAsyncReply => .ok ⟨.v1_3, .getAsyncReply, 8, xid⟩
  | .setAsync => .ok ⟨.v1_3, .setAsync, 8, xid⟩
  | .meterMod => .ok ⟨.v1_3, .meterMod, 8, xid⟩

/-- Into Vec for OfPayload: Hello, EchoRequest and EchoReply serialize to
an empty body; every other variant hits the catch-all panic! arm. -/
def OfPayload.intoVec : OfPayload → RustResult (List Nat)
  | .hello => .ok []
  | .echoRequest => .ok []
  | .echoReply => .ok []
  | _ => .panic

/-- OfMsg struct of src/ds/mod.rs: a header plus a payload. -/
structure OfMsg where
  header : Header
  payload : OfPayload
  deriving DecidableEq

/-- OfMsg::generate of src/ds/mod.rs: pair the payload with the header
that generate_header builds for the given xid. -/
def OfMsg.generate (xid : Nat) (payload : OfPayload) : RustResult OfMsg :=
  match payload.generateHeader xid with
  | .ok h => .ok ⟨h, payload⟩
  | .err e => .err e
  | .panic => .panic

/-- Into Vec for OfMsg: header bytes followed by payload bytes. -/
def OfMsg.intoVec (m : OfMsg) : RustResult (List Nat) :=
  match m.payload.intoVec with
  | .ok pb => .ok (m.header.intoVec ++ pb)
  | .err e => .err e
  | .panic => .panic

/-- Action the controller dispatcher takes for one incoming message. -/
inductive DispatchAction where
  | reply (r : RustResult OfMsg)
  | handler (m : OfMsg)
  deriving DecidableEq

/-- Dispatcher loop body of src/ctl/mod.rs start_controller: a Hello is
answered by handle_hello (OfMsg::generate(xid, Hello) pushed onto the
reply channel), an EchoRequest by handle_echo_request, and every other
type is passed to the user handler.  The source of handle_echo_request
names OfPayload::EchoResponse, a variant that does not exist (the enum
declares EchoReply), so that function does not compile as written; the
evident intent, an EchoReply payload, is modelled here. -/
def dispatchController (msg : OfMsg) : DispatchAction :=
  match msg.header.ttype with
  | .hello => .reply (OfMsg.generate msg.header.xid .hello)
  | .echoRequest => .reply (OfMsg.generate msg.header.xid .echoReply)
  | _ => .handler msg

/-- Reader-loop treatment of a decoded header in
src/ctl/switch.rs start_switch_connection: the loop calls
Header::try_from(..).expect(..), so any decode error, including an
unknown message-type byte, aborts the reader thread. -/
def readerDecodeHeader (headerBytes : List Nat) : RustResult Header :=
  expectR (Header.tryFrom headerBytes)

/-- Result of one call to TcpStream::read as seen by read_exact. -/
inductive ReadResult where
  | ok (n : Nat)
  | ioErr
  deriving DecidableEq

/-- Exit status of the read_exact loop: Ok(()) once the buffer is
filled, or an early Err return from a failed read. -/
inductive ReadExactExit where
  | filled
  | ioError
  deriving DecidableEq

/-- Models the read_exact loop of src/ctl/switch.rs against a list of
socket read results: some filled once the buffer is filled (the loop
exits), some ioError when a read fails, and none when the supplied read
results are exhausted while the loop is still running.  The loop body
shrinks the buffer by the number of bytes each read returns and has no
case that exits on a zero-byte (end-of-file) read. -/
def readExactRun : List ReadResult → Nat → Option ReadExactExit
  | _, 0 => some .filled
  | [], _ + 1 => none
  | .ioErr :: _, _ + 1 => some .ioError
  | .ok n :: rest, bufLen + 1 => readExactRun rest (bufLen + 1 - n)

/-- Read buffer size of src/ctl/switch.rs. -/
def READ_BUFFER_SIZE : Nat := 128

/-- Accumulation loop of read_bytes in src/ctl/switch.rs: while fewer
than the requested bytes have been read, request
min (len - read) READ_BUFFER_SIZE further bytes (read_exact fills them
from the stream) and append them to the result.  The stream is modelled
as the list of bytes the socket will deliver. -/
def readBytesLoop (stream : List Nat) (remaining : Nat) : List Nat :=
  if remaining = 0 then []
  else
    stream.take (min remaining READ_BUFFER_SIZE) ++
      readBytesLoop (stream.drop (min remaining READ_BUFFER_SIZE))
        (remaining - min remaining READ_BUFFER_SIZE)
termination_by remaining
decreasing_by simp [READ_BUFFER_SIZE]; omega

/-- read_bytes of src/ctl/switch.rs: accumulate exactly len bytes. -/
def read_bytes (stream : List Nat) (len : Nat) : List Nat :=
  readBytesLoop stream len

/-- Big-endian u32 value of four bytes, as cursor.read_u32 computes it. -/
def beU32 (b0 b1 b2 b3 : Nat) : Nat :=
  (b0 % 256) * 16777216 + (b1 % 256) * 65536 + (b2 % 256) * 256 + b3 % 256

/-- OxmTlvHeader bit accessor of src/ds/flow_match.rs: bits 0..=7. -/
def oxmGetLength (w : Nat) : Nat := w % 256

/-- OxmTlvHeader bit accessor of src/ds/flow_match.rs: bit 8. -/
def oxmGetHasmask (w : Nat) : Nat := w / 256 % 2

/-- OxmTlvHeader bit accessor of src/ds/flow_match.rs: bits 9..=15. -/
def oxmGetField (w : Nat) : Nat := w / 512 % 128

/-- OxmTlvHeader bit accessor of src/ds/flow_match.rs: bits 16..=31. -/
def oxmGetClass (w : Nat) : Nat := w / 65536 % 65536

/-- OxmClass discriminants of src/ds/flow_match.rs: XmcNxm0, XmcNxm1,
XmcOpenFlowBasic, XmcExperimenter. -/
def oxmClassValues : List Nat := [0x0000, 0x0001, 0x8000, 0xFFFF]

/-- EtherType discriminants of src/ds/flow_match.rs, in source order. -/
def etherTypeValues : List Nat :=
  [0x0800, 0x0806, 0x0842, 0x22F3, 0x22EA, 0x6003, 0x8035, 0x809B,
   0x80F3, 0x8100, 0x8137, 0x8204, 0x86DD, 0x8808, 0x8809, 0x8819,
   0x8847, 0x8848, 0x8863, 0x8864, 0x886D, 0x8870, 0x887B, 0x888E,
   0x8892, 0x889A, 0x88A2, 0x88A4, 0x88A8, 0x88AB, 0x88B8, 0x88B9,
   0x88BA, 0x88CC, 0x88CD, 0x88DC, 0x88E1, 0x88E3, 0x88E5, 0x88E7,
   0x88F7, 0x88F8, 0x88FB, 0x8902, 0x8906, 0x8914, 0x8915, 0x891D,
   0x892F, 0x9000, 0x9100]

/-- EtherType::from_u16: exact lookup among the declared discriminants;
the value is modelled by its discriminant. -/
def etherTypeFromU16? (n : Nat) : Option Nat :=
  if n ∈ etherTypeValues then some n else none

/-- IpProto::from_u16: the source enumerates every protocol number from
0 (Hopopt) to 142 (Rohc) contiguously, plus Testing1 253, Testing2 254
and Reserved 255. -/
def ipProtoFromU16? (n : Nat) : Option Nat :=
  if n ≤ 142 ∨ n = 253 ∨ n = 254 ∨ n = 255 then some n else none

/-- IcmpType::from_u8: the source declares 0, 3, 4, 5 and the contiguous
range 8 (EchoRequest) to 41 (ExperimentalMobility41). -/
def icmpTypeFromU8? (n : Nat) : Option Nat :=
  if n = 0 ∨ n = 3 ∨ n = 4 ∨ n = 5 ∨ (8 ≤ n ∧ n ≤ 41) then some n else none

/-- ArpOp::from_u16: the source declares 0 to 25 contiguously plus
Reserved66535 = 66535 (sic: that discriminant exceeds u16, so the lookup
can never produce it from a 16-bit read). -/
def arpOpFromU16? (n : Nat) : Option Nat :=
  if n ≤ 25 ∨ n = 66535 then some n else none

/-- IcmpV6Type::from_u8: the source declares 0 to 4 contiguously, 100,
101, 127, the contiguous range 128 (EchoRequest) to 161
(ExtendedEchoReply), 200, 201 and 255. -/
def icmpV6TypeFromU8? (n : Nat) : Option Nat :=
  if n ≤ 4 ∨ n = 100 ∨ n = 101 ∨ n = 127 ∨ (128 ≤ n ∧ n ≤ 161) ∨
     n = 200 ∨ n = 201 ∨ n = 255 then some n else none

/-- MatchPayload enum of src/ds/flow_match.rs.  Each Payload* struct of
the source is a single-field record; the constructor carries that field.
Enumerated fields (EtherType, IpProto, IcmpType, ArpOp, IcmpV6Type) are
modelled by their validated discriminant, addresses by their byte lists,
and the IPv6ExtHdr bitfield by its raw u16. -/
inductive MatchPayload where
  | inPort (ingressPort : PortNumber)
  | inPhyPort (phyPort : Nat)
  | metadata (metadata : Nat)
  | ethDst (a : List Nat)
  | ethSrc (a : List Nat)
  | ethType (code : Nat)
  | vlanVId (vlanId : Nat)
  | vlanPcp (vlanPcp : Nat)
  | ipDscp (ipDscp : Nat)
  | ipEcn (ipEnc : Nat)
  | ipProto (code : Nat)
  | iPv4Src (a : List Nat)
  | iPv4Dst (a : List Nat)
  | tcpSrc (port : Nat)
  | tcpDst (port : Nat)
  | udpSrc (port : Nat)
  | udpDst (port : Nat)
  | sctpSrc (port : Nat)
  | sctpDst (port : Nat)
  | icmpV4Type (code : Nat)
  | icmpV4Code (code : Nat)
  | arpOp (code : Nat)
  | arpSpa (a : List Nat)
  | arpTpa (a : List Nat)
  | arpSha (a : List Nat)
  | arpTha (a : List Nat)
  | iPv6Src (a : List Nat)
  | iPv6Dst (a : List Nat)
  | iPv6FLabel (flabel : Nat)
  | icmpV6Type (code : Nat)
  | icmpV6Code (code : Nat)
  | iPv6NdTarget (a : List Nat)
  | iPv6NdSll (a : List Nat)
  | iPv6NdTll (a : List Nat)
  | mplsLabel (label : Nat)
  | mplsTc (tc : Nat)
  | mplsBos (bos : Nat)
  | pbbISid (iSid : Nat)
  | tunnelId (metadata : Nat)
  | iPv6ExtHdr (flags : Nat)
  deriving DecidableEq

/-- Into Vec for MatchPayload, one arm per Payload* Into impl of
src/ds/flow_match.rs.  Note that PayloadIpProto reads a u16 on decode
but writes a single u8 on encode, exactly as the source does. -/
def MatchPayload.intoVec : MatchPayload → List Nat
  | .inPort p => u32be p.intoU32
  | .inPhyPort v => u32be v
  | .metadata v => u64be v
  | .ethDst a => a
  | .ethSrc a => a
  | .ethType c => u16be c
  | .vlanVId v => u16be v
  | .vlanPcp v => u8be v
  | .ipDscp v => u8be v
  | .ipEcn v => u8be v
  | .ipProto c => u8be c
  | .iPv4Src a => a
  | .iPv4Dst a => a
  | .tcpSrc p => u16be p
  | .tcpDst p => u16be p
  | .udpSrc p => u16be p
  | .udpDst p => u16be p
  | .sctpSrc p => u16be p
  | .sctpDst p => u16be p
  | .icmpV4Type c => u8be c
  | .icmpV4Code c => u8be c
  | .arpOp c => u16be c
  | .arpSpa a => a
  | .arpTpa a => a
  | .arpSha a => a
  | .arpTha a => a
  | .iPv6Src a => a
  | .iPv6Dst a => a
  | .iPv6FLabel v => u32be v
  | .icmpV6Type c => u8be c
  | .icmpV6Code c => u8be c
  | .iPv6NdTarget a => a
  | .iPv6NdSll a => a
  | .iPv6NdTll a => a
  | .mplsLabel v => u32be v
  | .mplsTc v => u8be v
  | .mplsBos v => u8be v
  | .pbbISid v => u32be v
  | .tunnelId v => u64be v
  | .iPv6ExtHdr f => u16be f

/-- Payload dispatch of TlvMatch::try_from in src/ds/flow_match.rs: the
OfbMatchFields::from_u32 lookup (valid discriminants are exactly 0..=39)
fused with the per-field Payload*::try_from decoders.  Unwrapped cursor
reads abort on short slices; enum lookups yield UnknownValue errors. -/
def tlvPayloadTryFrom (field : Nat) (s : List Nat) : RustResult MatchPayload :=
  match field with
  | 0 =>
    match readU32? s with
    | none => .panic
    | some (raw, _) =>
      match PortNumber.tryFrom raw with
      | .ok p => .ok (.inPort p)
      | .err e => .err e
      | .panic => .panic
  | 1 =>
    match readU32? s with
    | none => .panic
    | some (v, _) => .ok (.inPhyPort v)
  | 2 =>
    match readU64? s with
    | none => .panic
    | some (v, _) => .ok (.metadata v)
  | 3 =>
    match from_slice_eth s with
    | .ok a => .ok (.ethDst a)
    | .err e => .err e
    | .panic => .panic
  | 4 =>
    match from_slice_eth s with
    | .ok a => .ok (.ethSrc a)
    | .err e => .err e
    | .panic => .panic
  | 5 =>
    match readU16? s with
    | none => .panic
    | some (raw, _) =>
      match etherTypeFromU16? raw with
      | none => .err (.unknownValue raw "EtherType")
      | some c => .ok (.ethType c)
  | 6 =>
    match readU16? s with
    | none => .panic
    | some (v, _) => .ok (.vlanVId v)
  | 7 =>
    match readU8? s with
    | none => .panic
    | some (v, _) => .ok (.vlanPcp v)
  | 8 =>
    match readU8? s with
    | none => .panic
    | some (v, _) => .ok (.ipDscp v)
  | 9 =>
    match readU8? s with
    | none => .panic
    | some (v, _) => .ok (.ipEcn v)
  | 10 =>
    match readU16? s with
    | none => .panic
    | some (raw, _) =>
      match ipProtoFromU16? raw with
      | none => .err (.unknownValue raw "IpProto")
      | some c => .ok (.ipProto c)
  | 11 =>
    match from_slice_v4 s with
    | .ok a => .ok (.iPv4Src a)
    | .err e => .err e
    | .panic => .panic
  | 12 =>
    match from_slice_v4 s with
    | .ok a => .ok (.iPv4Dst a)
    | .err e => .err e
    | .panic => .panic
  | 13 =>
    match readU16? s with
    | none => .panic
    | some (v, _) => .ok (.tcpSrc v)
  | 14 =>
    match readU16? s with
    | none => .panic
    | some (v, _) => .ok (.tcpDst v)
  | 15 =>
    match readU16? s with
    | none => .panic
    | some (v, _) => .ok (.udpSrc v)
  | 16 =>
    match readU16? s with
    | none => .panic
    | some (v, _) => .ok (.udpDst v)
  | 17 =>
    match readU16? s with
    | none => .panic
    | some (v, _) => .ok (.sctpSrc v)
  | 18 =>
    match readU16? s with
    | none => .panic
    | some (v, _) => .ok (.sctpDst v)
  | 19 =>
    match readU8? s with
    | none => .panic
    | some (raw, _) =>
      match icmpTypeFromU8? raw with
      | none => .err (.unknownValue raw "IcmpType")
      | some c => .ok (.icmpV4Type c)
  | 20 =>
    match readU8? s with
    | none => .panic
    | some (v, _) => .ok (.icmpV4Code v)
  | 21 =>
    match readU16? s with
    | none => .panic
    | some (raw, _) =>
      match arpOpFromU16? raw with
      | none => .err (.unknownValue raw "ArpOp")
      | some c => .ok (.arpOp c)
  | 22 =>
    match from_slice_v4 s with
    | .ok a => .ok (.arpSpa a)
    | .err e => .err e
    | .panic => .panic
  | 23 =>
    match from_slice_v4 s with
    | .ok a => .ok (.arpTpa a)
    | .err e => .err e
    | .panic => .panic
  | 24 =>
    match from_slice_eth s with
    | .ok a => .ok (.arpSha a)
    | .err e => .err e
    | .panic => .panic
  | 25 =>
    match from_slice_eth s with
    | .ok a => .ok (.arpTha a)
    | .err e => .err e
    | .panic => .panic
  | 26 =>
    match from_slice_v6 s with
    | .ok a => .ok (.iPv6Src a)
    | .err e => .err e
    | .panic => .panic
  | 27 =>
    match from_slice_v6 s with
    | .ok a => .ok (.iPv6Dst a)
    | .err e => .err e
    | .panic => .panic
  | 28 =>
    match readU32? s with
    | none => .panic
    | some (v, _) => .ok (.iPv6FLabel v)
  | 29 =>
    match readU8? s with
    | none => .panic
    | some (raw, _) =>
      match icmpV6TypeFromU8? raw with
      | none => .err (.unknownValue raw "IcmpV6Type")
      | some c => .ok (.icmpV6Type c)
  | 30 =>
    match readU8? s with
    | none => .panic
    | some (v, _) => .ok (.icmpV6Code v)
  | 31 =>
    match from_slice_v6 s with
    | .ok a => .ok (.iPv6NdTarget a)
    | .err e => .err e
    | .panic => .panic
  | 32 =>
    match from_slice_eth s with
    | .ok a => .ok (.iPv6NdSll a)
    | .err e => .err e
    | .panic => .panic
  | 33 =>
    match from_slice_eth s with
    | .ok a => .ok (.iPv6NdTll a)
    | .err e => .err e
    | .panic => .panic
  | 34 =>
    match readU32? s with
    | none => .panic
    | some (v, _) => .ok (.mplsLabel v)
  | 35 =>
    match readU8? s with
    | none => .panic
    | some (v, _) => .ok (.mplsTc v)
  | 36 =>
    match readU8? s with
    | none => .panic
    | some (v, _) => .ok (.mplsBos v)
  | 37 =>
    match readU32? s with
    | none => .panic
    | some (v, _) => .ok (.pbbISid v)
  | 38 =>
    match readU64? s with
    | none => .panic
    | some (v, _) => .ok (.tunnelId v)
  | 39 =>
    match readU16? s with
    | none => .panic
    | some (raw, _) => .ok (.iPv6ExtHdr raw)
  | other => .err (.unknownValue other "OfbMatchFields")

/-- TlvMatch struct of src/ds/flow_match.rs: the raw 32-bit OXM TLV
header word plus the decoded payload. -/
structure TlvMatch where
  tlvHeader : Nat
  payload : MatchPayload
  deriving DecidableEq

/-- TlvMatch::try_from of src/ds/flow_match.rs: reject an unknown OXM
class, look the field id up, and decode the payload from the slice. -/
def TlvMatch.tryFrom (tlvHeader : Nat) (matchSlice : List Nat) :
    RustResult TlvMatch :=
  if oxmGetClass tlvHeader ∈ oxmClassValues then
    match tlvPayloadTryFrom (oxmGetField tlvHeader) matchSlice with
    | .ok p => .ok ⟨tlvHeader, p⟩
    | .err e => .err e
    | .panic => .panic
  else .err (.unknownValue (oxmGetClass tlvHeader) "OxmClass")

/-- Into Vec for TlvMatch: the raw header word, then the payload. -/
def TlvMatch.intoVec (t : TlvMatch) : List Nat :=
  u32be t.tlvHeader ++ t.payload.intoVec

/-- MatchType enum of src/ds/flow_match.rs. -/
inductive MatchType where
  | standard
  | oxm
  deriving DecidableEq

/-- Discriminant of a MatchType value. -/
def MatchType.toU16 : MatchType → Nat
  | .standard => 0
  | .oxm => 1

/-- MatchType::from_u16: exact table lookup. -/
def MatchType.fromU16? : Nat → Option MatchType
  | 0 => some .standard
  | 1 => some .oxm
  | _ => none

/-- Fixed MATCH_LENGTH constant of src/ds/flow_match.rs. -/
def MATCH_LENGTH : Nat := 8

/-- Padding-byte count (len + 7) / 8 * 8 - len appended by the Match and
SetField encoders.  The Nat formula coincides with the wrapping u16
arithmetic of a release build for every len below 65536 (a debug build
panics on the add overflow when len exceeds 65528). -/
def matchPad (len : Nat) : Nat := (len + 7) / 8 * 8 - len

/-- Match struct of src/ds/flow_match.rs: match type, declared logical
length (excluding final padding) and the decoded TLV entries (the source
field is named matches, a reserved word in Lean). -/
structure Match where
  ttype : MatchType
  length : Nat
  tlvMatches : List TlvMatch
  deriving DecidableEq

/-- TLV loop of Match::try_from in src/ds/flow_match.rs, acting on the
bytes after the 4-byte type and length fields.  While bytes_remaining is
positive: cursor.read_u32 the TLV header word (unwrapped: a short rest
aborts), slice the next get_length bytes (an out-of-range slice bound
aborts), decode the TLV, advance past it, and subtract get_length from
bytes_remaining (checked usize arithmetic: underflow aborts). -/
def matchTlvLoop (rest : List Nat) (remaining : Nat) :
    RustResult (List TlvMatch) :=
  if remaining = 0 then .ok []
  else
    match rest with
    | b0 :: b1 :: b2 :: b3 :: r4 =>
      if oxmGetLength (beU32 b0 b1 b2 b3) ≤ r4.length then
        match TlvMatch.tryFrom (beU32 b0 b1 b2 b3)
            (r4.take (oxmGetLength (beU32 b0 b1 b2 b3))) with
        | .ok tlv =>
          if oxmGetLength (beU32 b0 b1 b2 b3) ≤ remaining then
            match matchTlvLoop (r4.drop (oxmGetLength (beU32 b0 b1 b2 b3)))
                (remaining - oxmGetLength (beU32 b0 b1 b2 b3)) with
            | .ok tlvs => .ok (tlv :: tlvs)
            | .err e => .err e
            | .panic => .panic
          else .panic
        | .err e => .err e
        | .panic => .panic
      else .panic
    | _ => .panic
termination_by rest.length
decreasing_by simp [List.length_drop]; omega

/-- Match::try_from of src/ds/flow_match.rs: unwrapped u16 type read,
MatchType lookup, Standard-only guard, unwrapped u16 length read, then
the TLV loop on length - MATCH_LENGTH remaining bytes (checked usize
subtraction: a length below 8 aborts). -/
def Match.tryFrom (bytes : List Nat) : RustResult Match :=
  match readU16? bytes with
  | none => .panic
  | some (ttypeRaw, r1) =>
    match MatchType.fromU16? ttypeRaw with
    | none => .err (.unknownValue ttypeRaw "MatchType")
    | some mt =>
      match mt with
      | .oxm => .err (.unsupportedValue ttypeRaw "MatchType")
      | .standard =>
        match readU16? r1 with
        | none => .panic
        | some (length, r2) =>
          if length < MATCH_LENGTH then .panic
          else
            match matchTlvLoop r2 (length - MATCH_LENGTH) with
            | .ok ms => .ok ⟨.standard, length, ms⟩
            | .err e => .err e
            | .panic => .panic

/-- Into Vec for Match: u16 type, u16 logical length, the TLV entries,
then (length + 7) / 8 * 8 - length zero padding bytes. -/
def Match.intoVec (m : Match) : List Nat :=
  u16be m.ttype.toU16 ++ u16be m.length ++
    (m.tlvMatches.map TlvMatch.intoVec).flatten ++
    List.replicate (matchPad m.length) 0

/-- PayloadSetField struct of src/ds/actions.rs. -/
structure PayloadSetField where
  field : TlvMatch
  deriving DecidableEq

/-- PayloadSetField::try_from of src/ds/actions.rs: unwrapped u32 TLV
header read, then TlvMatch::try_from on the bytes after the header. -/
def PayloadSetField.tryFrom (bytes : List Nat) : RustResult PayloadSetField :=
  match readU32? bytes with
  | none => .panic
  | some (hdr, _) =>
    match TlvMatch.tryFrom hdr (bytes.drop 4) with
    | .ok f => .ok ⟨f⟩
    | .err e => .err e
    | .panic => .panic

/-- Logical length of an encoded SetField action payload: the TLV length
field plus the 4 header bytes, as src/ds/actions.rs computes it. -/
def setFieldLen (sf : PayloadSetField) : Nat :=
  oxmGetLength sf.field.tlvHeader + 4

/-- Into Vec for PayloadSetField: the TLV bytes followed by
(len + 7) / 8 * 8 - len zero padding bytes for len the logical length. -/
def PayloadSetField.intoVec (sf : PayloadSetField) : List Nat :=
  TlvMatch.intoVec sf.field ++ List.replicate (matchPad (setFieldLen sf)) 0

/-! Helper lemmas shared by the claim theorems. -/

/-- Value read by a successful big-endian u16 read fits in 16 bits. -/
theorem readU16?_lt {l r : List Nat} {v : Nat}
    (h : readU16? l = some (v, r)) : v < 65536 := by
  rcases l with _ | ⟨b0, l1⟩
  · simp [readU16?, readU8?] at h
  rcases l1 with _ | ⟨b1, l2⟩
  · simp [readU16?, readU8?] at h
  simp [readU16?, readU8?] at h
  obtain ⟨hv, -⟩ := h
  have h0 : b0 % 256 < 256 := Nat.mod_lt _ (by omega)
  have h1 : b1 % 256 < 256 := Nat.mod_lt _ (by omega)
  omega

/-- Length field of a successfully decoded header fits in 16 bits, since
it was read as a big-endian u16. -/
theorem headerTryFrom_length_lt {b : List Nat} {h : Header}
    (hde : Header.tryFrom b = .ok h) : h.length < 65536 := by
  unfold Header.tryFrom at hde
  split at hde
  · exact absurd hde (by simp)
  split at hde
  · exact absurd hde (by simp)
  split at hde
  · exact absurd hde (by simp)
  split at hde
  · exact absurd hde (by simp)
  split at hde
  · exact absurd hde (by simp)
  split at hde
  · exact absurd hde (by simp)
  rename_i length r3 heq
  split at hde
  · exact absurd hde (by simp)
  rw [RustResult.ok.injEq] at hde
  subst hde
  exact readU16?_lt heq

/-- Header decoding never reaches the panic outcome: every branch of
Header::try_from produces a value or a typed error. -/
theorem headerTryFrom_noPanic (b : List Nat) :
    (Header.tryFrom b).isPanic = false := by
  unfold Header.tryFrom
  repeat' split
  all_goals rfl

/-- PortNumber decoding never reaches the panic outcome. -/
theorem portNumberTryFrom_noPanic (p : Nat) :
    (PortNumber.tryFrom p).isPanic = false := by
  unfold PortNumber.tryFrom
  repeat' split
  all_goals rfl

/-- Dropping everything before the replicated zero tail of an encoded
block leaves exactly that tail. -/
theorem append_replicate_drop (l : List Nat) (k : Nat) :
    (l ++ List.replicate k 0).drop ((l ++ List.replicate k 0).length - k)
      = List.replicate k 0 := by
  rw [List.length_append, List.length_replicate, Nat.add_sub_cancel]
  exact List.drop_left l _

/-- Match::try_from only succeeds with the Standard match type. -/
theorem matchTryFrom_standard {bytes : List Nat} {m : Match}
    (h : Match.tryFrom bytes = .ok m) : m.ttype = .standard := by
  unfold Match.tryFrom at h
  repeat' split at h
  all_goals simp at h
  subst h
  rfl

/-- First four bytes of an encoded Match are its type and length fields. -/
theorem intoVec_take4 (m : Match) :
    (Match.intoVec m).take 4 = u16be m.ttype.toU16 ++ u16be m.length := by
  unfold Match.intoVec
  rw [List.append_assoc]
  have h4 : (u16be m.ttype.toU16 ++ u16be m.length).length = 4 := by simp [u16be]
  rw [← h4, List.take_left]

/-- Tail of an encoded Match is its zero padding. -/
theorem intoVec_pad (m : Match) :
    (Match.intoVec m).drop ((Match.intoVec m).length - matchPad m.length)
      = List.replicate (matchPad m.length) 0 :=
  append_replicate_drop
    (u16be m.ttype.toU16 ++ u16be m.length ++
      (m.tlvMatches.map TlvMatch.intoVec).flatten) (matchPad m.length)

/-- Accumulation loop of read_bytes returns exactly the prefix of the
stream of the requested length. -/
theorem readBytesLoop_eq_take (stream : List Nat) (remaining : Nat) :
    readBytesLoop stream remaining = stream.take remaining := by
  induction remaining using Nat.strong_induction_on generalizing stream with
  | _ n ih =>
    rw [readBytesLoop]
    split
    · rename_i h0
      subst h0
      simp
    · rename_i h0
      rw [ih (n - min n READ_BUFFER_SIZE) (by simp [READ_BUFFER_SIZE]; omega)]
      rw [← List.take_add]
      congr 1
      simp only [READ_BUFFER_SIZE]
      omega

/-! Claim theorems. -/

/-- C1: the dispatcher answers a Hello event with a Hello reply and an
EchoRequest event with an EchoReply, each carrying the event's xid,
version 1.3, the matching reply type and an empty body whose total
encoding is 8 bytes, without invoking the user handler; every other
message type is passed to the user handler.  The EchoRequest arm of the
source names the nonexistent variant OfPayload::EchoResponse (the enum
declares EchoReply), which does not compile; the evident intent, an
EchoReply payload, is what this theorem checks. -/
theorem dispatcher_auto_replies (msg : OfMsg) :
    (msg.header.ttype = .hello →
      dispatchController msg = .reply (.ok ⟨⟨.v1_3, .hello, 8, msg.header.xid⟩, .hello⟩)
      ∧ OfMsg.intoVec ⟨⟨.v1_3, .hello, 8, msg.header.xid⟩, .hello⟩ =
          .ok ([4,0,0,8] ++ u32be msg.header.xid)
      ∧ ([4,0,0,8] ++ u32be msg.header.xid).length = 8)
    ∧ (msg.header.ttype = .echoRequest →
      dispatchController msg = .reply (.ok ⟨⟨.v1_3, .echoReply, 8, msg.header.xid⟩, .echoReply⟩)
      ∧ OfMsg.intoVec ⟨⟨.v1_3, .echoReply, 8, msg.header.xid⟩, .echoReply⟩ =
          .ok ([4,3,0,8] ++ u32be msg.header.xid)
      ∧ ([4,3,0,8] ++ u32be msg.header.xid).length = 8)
    ∧ (msg.header.ttype ≠ .hello → msg.header.ttype ≠ .echoRequest →
      dispatchController msg = .handler msg) := by
  refine ⟨?_, ?_, ?_⟩
  · intro h
    refine ⟨?_, ?_, by simp [u32be, u16be]⟩
    · simp [dispatchController, h, OfMsg.generate, OfPayload.generateHeader]
    · simp [OfMsg.intoVec, OfPayload.intoVec, Header.intoVec, Version.toU8,
        MsgType.toU8, u16be]
  · intro h
    refine ⟨?_, ?_, by simp [u32be, u16be]⟩
    · simp [dispatchController, h, OfMsg.generate, OfPayload.generateHeader]
    · simp [OfMsg.intoVec, OfPayload.intoVec, Header.intoVec, Version.toU8,
        MsgType.toU8, u16be]
  · intro h1 h2
    rcases msg with ⟨⟨ver, t, len, xid⟩, pl⟩
    cases t <;> simp_all [dispatchController]

/-- C1 witness: the dispatcher behavior at a concrete Hello (xid 42), a
concrete EchoRequest (xid 7) and a concrete PacketIn event. -/
theorem dispatcher_auto_replies_witness :
    (dispatchController ⟨⟨.v1_3, .hello, 8, 42⟩, .hello⟩ =
        .reply (.ok ⟨⟨.v1_3, .hello, 8, 42⟩, .hello⟩)
      ∧ OfMsg.intoVec ⟨⟨.v1_3, .hello, 8, 42⟩, .hello⟩ = .ok ([4,0,0,8] ++ u32be 42)
      ∧ ([4,0,0,8] ++ u32be 42).length = 8)
    ∧ (dispatchController ⟨⟨.v1_3, .echoRequest, 8, 7⟩, .echoRequest⟩ =
        .reply (.ok ⟨⟨.v1_3, .echoReply, 8, 7⟩, .echoReply⟩)
      ∧ OfMsg.intoVec ⟨⟨.v1_3, .echoReply, 8, 7⟩, .echoReply⟩ = .ok ([4,3,0,8] ++ u32be 7)
      ∧ ([4,3,0,8] ++ u32be 7).length = 8)
    ∧ dispatchController ⟨⟨.v1_3, .packetIn, 24, 5⟩, .packetIn⟩ =
        .handler ⟨⟨.v1_3, .packetIn, 24, 5⟩, .packetIn⟩ :=
  ⟨(dispatcher_auto_replies ⟨⟨.v1_3, .hello, 8, 42⟩, .hello⟩).1 rfl,
   (dispatcher_auto_replies ⟨⟨.v1_3, .echoRequest, 8, 7⟩, .echoRequest⟩).2.1 rfl,
   (dispatcher_auto_replies ⟨⟨.v1_3, .packetIn, 24, 5⟩, .packetIn⟩).2.2
     (by decide) (by decide)⟩

/-- C2 (amended): not every codec decoder is panic-free.  The
WriteActions and ApplyActions instruction payload decoders abort on
every input (they are unimplemented!()); the SwitchConfig decoder
aborts on every input shorter than 4 bytes (an unwrapped u16 read
fails) and on every input whose leading u16 flags value lies outside
the ConfigFlags mask (value at least 4: unwrapped from_bits fails);
the header decoder and the PortNumber decoder, by contrast, return a
value or a typed error on every input. -/
theorem decoder_panic_profile :
    (∀ b : List Nat, PayloadWriteActions.tryFrom b = .panic)
    ∧ (∀ b : List Nat, PayloadApplyActions.tryFrom b = .panic)
    ∧ (∀ b : List Nat, b.length < 4 → SwitchConfig.tryFrom b = .panic)
    ∧ (∀ (b : List Nat) (v : Nat) (r : List Nat),
        readU16? b = some (v, r) → 4 ≤ v → SwitchConfig.tryFrom b = .panic)
    ∧ (∀ b : List Nat, (Header.tryFrom b).isPanic = false)
    ∧ (∀ p : Nat, (PortNumber.tryFrom p).isPanic = false) := by
  refine ⟨fun _ => rfl, fun _ => rfl, ?_, ?_, headerTryFrom_noPanic,
    portNumberTryFrom_noPanic⟩
  · intro b hlen
    match b with
    | [] => rfl
    | [b0] => rfl
    | [b0, b1] =>
      unfold SwitchConfig.tryFrom
      simp only [readU16?, readU8?]
      split <;> rfl
    | [b0, b1, b2] =>
      unfold SwitchConfig.tryFrom
      simp only [readU16?, readU8?]
      split <;> rfl
    | b0 :: b1 :: b2 :: b3 :: rest =>
      simp at hlen
      omega
  · intro b v r heq hv
    unfold SwitchConfig.tryFrom
    simp only [heq]
    unfold configFlagsFromBits?
    rw [if_neg (by omega)]

/-- C2 witness: the SwitchConfig decoder aborts on the empty slice
(shorter than 4 bytes) and on the 4-byte input 00 04 00 00, whose flags
value 4 has a bit outside the ConfigFlags mask. -/
theorem decoder_panic_profile_witness :
    SwitchConfig.tryFrom [] = .panic
    ∧ SwitchConfig.tryFrom [0,4,0,0] = .panic :=
  ⟨decoder_panic_profile.2.2.1 [] (by decide),
   decoder_panic_profile.2.2.2.1 [0,4,0,0] 4 [0,0] (by decide) (by decide)⟩

/-- C2 counterexample: the WriteActions and ApplyActions payload
decoders and the SwitchConfig decoder abort on the empty byte slice,
refuting the claim that every payload decoder returns a decoded value or
a typed error without aborting. -/
theorem decoder_panics_cex :
    PayloadWriteActions.tryFrom [] = .panic
    ∧ PayloadApplyActions.tryFrom [] = .panic
    ∧ SwitchConfig.tryFrom [] = .panic := by
  refine ⟨rfl, rfl, by decide⟩

/-- C3 (amended): Header::try_from does not validate the length field,
and for every decoded header whose length field is at least 8,
payload_length equals length - 8. -/
theorem header_payload_length_sub8 (b : List Nat) (h : Header)
    (hde : Header.tryFrom b = .ok h) (hlen : 8 ≤ h.length) :
    h.payloadLength = h.length - 8 := by
  have hlt : h.length < 65536 := headerTryFrom_length_lt hde
  unfold Header.payloadLength HEADER_LENGTH
  omega

/-- C3 witness: the EchoRequest header 04 02 00 10 00 00 00 09 decodes
with length 16 and payload_length 8. -/
theorem header_payload_length_sub8_witness :
    Header.tryFrom [4,2,0,16,0,0,0,9] = .ok ⟨.v1_3, .echoRequest, 16, 9⟩
    ∧ (8:Nat) ≤ 16
    ∧ Header.payloadLength ⟨.v1_3, .echoRequest, 16, 9⟩ = 16 - 8 :=
  ⟨by decide, by decide,
   header_payload_length_sub8 [4,2,0,16,0,0,0,9] _ (by decide) (by decide)⟩

/-- C3 counterexample: the 8-byte header 04 00 00 07 00 00 00 2A, whose
length field is 7 (below 8), decodes successfully instead of failing
with an error. -/
theorem header_small_length_accepted_cex :
    Header.tryFrom [4,0,0,7,0,0,0,42] = .ok ⟨.v1_3, .hello, 7, 42⟩ := by
  decide

/-- C4 (code bug): the SwitchConfig encoder writes the flags field twice
and never writes miss_send_len, so for flags FRAG_DROP (bits 1) and
miss_send_len 128 the encoding is 00 01 00 01 rather than
flags followed by miss_send_len, and decode (encode m) has
miss_send_len 1, differing from m. -/
theorem switch_config_encode_flags_twice_bug :
    SwitchConfig.intoVec ⟨1, 128⟩ = [0,1,0,1]
    ∧ SwitchConfig.tryFrom (SwitchConfig.intoVec ⟨1, 128⟩) = .ok ⟨1, 1⟩
    ∧ (⟨1, 1⟩ : SwitchConfig) ≠ ⟨1, 128⟩ := by
  refine ⟨by decide, by decide, by decide⟩

/-- C5: PortNumber::try_from maps every non-zero u32 outside the
reserved set to NormalPort, every reserved constant to Reserved, and 0
to the IllegalValue(0, PortNumber) error. -/
theorem port_number_try_from_spec :
    (∀ p : Nat, p < 4294967296 → p ≠ 0 → p ∉ portNoValues →
      PortNumber.tryFrom p = .ok (.normalPort p))
    ∧ (∀ p ∈ portNoValues, PortNumber.tryFrom p = .ok (.reserved p))
    ∧ PortNumber.tryFrom 0 = .err (.illegalValue 0 "PortNumber") := by
  refine ⟨?_, ?_, by decide⟩
  · intro p _ hp0 hmem
    unfold PortNumber.tryFrom portNoFromU32?
    rw [if_neg hp0, if_neg hmem]
  · intro p hmem
    simp only [portNoValues, List.mem_cons, List.not_mem_nil, or_false] at hmem
    rcases hmem with rfl | rfl | rfl | rfl | rfl | rfl | rfl | rfl | rfl <;> decide

/-- C5 witness: port 5 decodes to NormalPort 5, the Controller constant
0xfffffffd to Reserved, and 0 to the IllegalValue error. -/
theorem port_number_try_from_spec_witness :
    PortNumber.tryFrom 5 = .ok (.normalPort 5)
    ∧ PortNumber.tryFrom 0xfffffffd = .ok (.reserved 0xfffffffd)
    ∧ PortNumber.tryFrom 0 = .err (.illegalValue 0 "PortNumber") :=
  ⟨port_number_try_from_spec.1 5 (by decide) (by decide) (by decide),
   port_number_try_from_spec.2.1 0xfffffffd (by decide),
   port_number_try_from_spec.2.2⟩

/-- C6 (amended): every decoder-accepted Match has the Standard type,
re-encodes starting with the u16 type 0 and the u16 unpadded logical
length field, and ends in (length + 7) / 8 * 8 - length zero padding
bytes; every SetField block likewise ends in its zero padding; the total
encoded size, however, is not always a multiple of 8. -/
theorem match_setfield_padding_properties :
    (∀ (bytes : List Nat) (m : Match), Match.tryFrom bytes = .ok m →
        m.ttype = .standard
        ∧ (Match.intoVec m).take 4 = u16be 0 ++ u16be m.length
        ∧ (Match.intoVec m).drop ((Match.intoVec m).length - matchPad m.length)
            = List.replicate (matchPad m.length) 0)
    ∧ (∀ sf : PayloadSetField,
        (PayloadSetField.intoVec sf).drop
            ((PayloadSetField.intoVec sf).length - matchPad (setFieldLen sf))
          = List.replicate (matchPad (setFieldLen sf)) 0) := by
  constructor
  · intro bytes m hde
    have hstd := matchTryFrom_standard hde
    refine ⟨hstd, ?_, intoVec_pad m⟩
    rw [intoVec_take4 m, hstd]
    rfl
  · intro sf
    exact append_replicate_drop (TlvMatch.intoVec sf.field) (matchPad (setFieldLen sf))

/-- C6 witness: the empty standard Match decoded from 00 00 00 08 and a
concrete InPort SetField block. -/
theorem match_setfield_padding_properties_witness :
    ((⟨.standard, 8, []⟩ : Match).ttype = .standard
      ∧ (Match.intoVec ⟨.standard, 8, []⟩).take 4 = u16be 0 ++ u16be 8
      ∧ (Match.intoVec ⟨.standard, 8, []⟩).drop
          ((Match.intoVec ⟨.standard, 8, []⟩).length - matchPad 8)
        = List.replicate (matchPad 8) 0)
    ∧ (PayloadSetField.intoVec ⟨⟨0x80000004, .inPort (.normalPort 9)⟩⟩).drop
        ((PayloadSetField.intoVec ⟨⟨0x80000004, .inPort (.normalPort 9)⟩⟩).length
          - matchPad (setFieldLen ⟨⟨0x80000004, .inPort (.normalPort 9)⟩⟩))
      = List.replicate (matchPad (setFieldLen ⟨⟨0x80000004, .inPort (.normalPort 9)⟩⟩)) 0 :=
  ⟨match_setfield_padding_properties.1 [0,0,0,8] ⟨.standard, 8, []⟩
      (by simp [Match.tryFrom, matchTlvLoop, readU16?, readU8?, MatchType.fromU16?,
        MATCH_LENGTH]),
   match_setfield_padding_properties.2 ⟨⟨0x80000004, .inPort (.normalPort 9)⟩⟩⟩

/-- C6 counterexample: the empty standard Match is accepted by the
decoder from the 4 bytes 00 00 00 08, yet its re-encoding occupies 4
bytes, which is not a multiple of 8. -/
theorem match_encoded_size_unaligned_cex :
    Match.tryFrom [0,0,0,8] = .ok ⟨.standard, 8, []⟩
    ∧ (Match.intoVec ⟨.standard, 8, []⟩).length = 4
    ∧ (Match.intoVec ⟨.standard, 8, []⟩).length % 8 ≠ 0 := by
  refine ⟨by simp [Match.tryFrom, matchTlvLoop, readU16?, readU8?, MatchType.fromU16?,
      MATCH_LENGTH], by decide, by decide⟩

/-- C7 (amended): when the session reader decodes a header whose
message-type byte is unrecognized, Header::try_from returns the
UnknownValue error for Type and the reader's expect call aborts the
reader thread; the message is not dropped-and-continued. -/
theorem reader_unknown_type_panics (b : List Nat) (v : Nat)
    (h : Header.tryFrom b = .err (.unknownValue v "Type")) :
    readerDecodeHeader b = .panic := by
  unfold readerDecodeHeader
  rw [h]
  rfl

/-- C7 witness: the reader aborts on the header bytes
04 64 00 08 00 00 00 02, whose type byte 0x64 is unknown. -/
theorem reader_unknown_type_panics_witness :
    readerDecodeHeader [4,100,0,8,0,0,0,2] = .panic :=
  reader_unknown_type_panics [4,100,0,8,0,0,0,2] 100 (by decide)

/-- C7 counterexample: on the unknown-type message
04 7F 00 08 00 00 00 01 the header decoder returns UnknownValue(127,
Type) and the reader loop, which expects the decode, aborts instead of
logging, discarding and continuing. -/
theorem reader_unknown_type_cex :
    Header.tryFrom [4,127,0,8,0,0,0,1] = .err (.unknownValue 127 "Type")
    ∧ readerDecodeHeader [4,127,0,8,0,0,0,1] = .panic := by
  refine ⟨by decide, by decide⟩

/-- C8 (code bug in source, claim kept): on end of file the socket read
returns 0 bytes, the buffer never shrinks, and the read_exact loop of
src/ctl/switch.rs never exits: after consuming any number of zero-byte
reads with a non-empty buffer the loop is still running, contradicting
the claim that the loop returns and the reader terminates cleanly. -/
theorem read_exact_eof_never_returns (k n : Nat) (hn : 0 < n) :
    readExactRun (List.replicate k (.ok 0)) n = none := by
  induction k generalizing n with
  | zero =>
    match n, hn with
    | m + 1, _ => rfl
  | succ k ih =>
    match n, hn with
    | m + 1, _ =>
      rw [List.replicate_succ]
      show readExactRun (.ok 0 :: List.replicate k (.ok 0)) (m + 1) = none
      rw [readExactRun]
      simpa using ih (m + 1) (Nat.succ_pos m)

/-- C8 witness: with an 8-byte buffer, three consecutive zero-byte reads
leave the loop still running. -/
theorem read_exact_eof_never_returns_witness :
    readExactRun (List.replicate 3 (.ok 0)) 8 = none :=
  read_exact_eof_never_returns 3 8 (by decide)

/-- C9: read_bytes accumulates and returns exactly len bytes from the
stream, requesting min (len - read) READ_BUFFER_SIZE bytes per
iteration; this covers len 0 and len an exact multiple of the 128-byte
buffer. -/
theorem read_bytes_accumulates_len (stream : List Nat) (len : Nat)
    (hlen : len ≤ stream.length) :
    read_bytes stream len = stream.take len
    ∧ (read_bytes stream len).length = len := by
  unfold read_bytes
  rw [readBytesLoop_eq_take]
  exact ⟨rfl, by simp [hlen]⟩

/-- C9 witness: a 256-byte request (twice the 128-byte buffer) returns
exactly the 256-byte stream, and a zero-byte request returns nothing. -/
theorem read_bytes_accumulates_len_witness :
    (read_bytes (List.replicate 256 7) 256 = (List.replicate 256 7).take 256
      ∧ (read_bytes (List.replicate 256 7) 256).length = 256)
    ∧ (read_bytes [1,2,3] 0 = ([1,2,3] : List Nat).take 0
      ∧ (read_bytes [1,2,3] 0).length = 0) :=
  ⟨read_bytes_accumulates_len (List.replicate 256 7) 256
      (by simp only [List.length_replicate, le_refl]),
   read_bytes_accumulates_len [1,2,3] 0 (by simp)⟩

/-- C10 (amended): from_slice_v4 succeeds exactly on length-6 slices
(returning the first 4 bytes) and fails with InvalidSliceLength on any
other length, including the correct IPv4 wire size of 4; from_slice_v6
never succeeds: it fails with InvalidSliceLength on any length other
than 6 and aborts with an out-of-bounds index on length-6 slices, so
IPv4 and IPv6 match fields can never be decoded from slices of their
correct wire sizes. -/
theorem hw_addr_slice_length_behavior (s : List Nat) :
    (s.length = 6 → from_slice_v4 s = .ok (s.take 4))
    ∧ (s.length ≠ 6 →
        from_slice_v4 s = .err (.invalidSliceLength 4 s.length "IPv4Address"))
    ∧ (s.length = 6 → from_slice_v6 s = .panic)
    ∧ (s.length ≠ 6 →
        from_slice_v6 s = .err (.invalidSliceLength 8 s.length "IPv6Address")) := by
  refine ⟨?_, ?_, ?_, ?_⟩
  · intro h6
    unfold from_slice_v4 copySlice
    rw [if_neg (by omega), if_pos (by omega)]
  · intro h6
    unfold from_slice_v4
    rw [if_pos h6]
  · intro h6
    unfold from_slice_v6 copySlice
    rw [if_neg (by omega), if_neg (by omega)]
  · intro h6
    unfold from_slice_v6
    rw [if_pos h6]

/-- C10 witness: concrete slices of lengths 6 and 4 under both
decoders. -/
theorem hw_addr_slice_length_behavior_witness :
    (from_slice_v4 [9,8,7,6,5,4] = .ok [9,8,7,6]
      ∧ from_slice_v6 [9,8,7,6,5,4] = .panic)
    ∧ (from_slice_v4 [1,2,3,4] = .err (.invalidSliceLength 4 4 "IPv4Address")
      ∧ from_slice_v6 [1,2,3,4] = .err (.invalidSliceLength 8 4 "IPv6Address")) :=
  ⟨⟨(hw_addr_slice_length_behavior [9,8,7,6,5,4]).1 (by decide),
    (hw_addr_slice_length_behavior [9,8,7,6,5,4]).2.2.1 (by decide)⟩,
   ⟨(hw_addr_slice_length_behavior [1,2,3,4]).2.1 (by decide),
    (hw_addr_slice_length_behavior [1,2,3,4]).2.2.2 (by decide)⟩⟩

/-- C10 counterexample: on the length-6 slice 01 02 03 04 05 06,
from_slice_v6 aborts with an out-of-bounds index instead of succeeding
with an 8-byte address. -/
theorem from_slice_v6_never_succeeds_cex :
    from_slice_v6 [1,2,3,4,5,6] = .panic := by
  decide

end Oath
